import Mathlib

/-!
Verification of the credential-strength evaluation engine and the secure
credential generator of `src/main.py` (SecurePass Evaluator).

The four core functions are embedded shallowly:
* `analyze_password` (feature extraction) works on the character list of the
  input string; each Python regex test is a direct character-class scan or a
  substring search over the lower-cased input.
* `calculate_strength` mirrors the sequential score mutations of the Python
  function, using `Int` (Python ints can go negative before the clamp).
* `generate_suggestions` mirrors the sequential conditional appends.
* `generate_password` takes the random choices of `secrets.choice` as an
  oracle `pick : Nat → Nat`; the character drawn for position `i` is
  `characters[pick i % characters.length]`, which ranges over exactly the
  values `secrets.choice(characters)` can return.
-/

/-- The feature record produced by `analyze_password` (the Python dict with
keys length/uppercase/lowercase/numbers/special/common_patterns/repeats). -/
structure Analysis where
  length : Nat
  uppercase : Bool
  lowercase : Bool
  numbers : Bool
  special : Bool
  common_patterns : Bool
  repeats : Bool
deriving DecidableEq, Repr

/-- The result dict of `calculate_strength` (keys strength/score/color). -/
structure StrengthResult where
  strength : String
  score : Int
  color : String
deriving DecidableEq, Repr

/-- `leadMatch needle hay` is true when `needle` occurs at the very start of
`hay` (helper for the substring search performed by `re.search` on the
alternation of literal patterns). -/
def leadMatch : List Char → List Char → Bool
  | [], _ => true
  | _ :: _, [] => false
  | a :: as, b :: bs => a == b && leadMatch as bs

/-- `occursIn needle hay` is true when `needle` occurs as a contiguous
substring of `hay`; this is what `re.search(r'(123|abc|password|qwerty)', s)`
tests for each literal alternative (none contains a regex metacharacter). -/
def occursIn (needle : List Char) : List Char → Bool
  | [] => needle.isEmpty
  | c :: cs => leadMatch needle (c :: cs) || occursIn needle cs

/-- `hasRepeatRun cs` is true when some character occurs at three consecutive
positions, the language of `re.search(r'(.)\1\x7b2,\x7d', s)`. -/
def hasRepeatRun : List Char → Bool
  | a :: b :: c :: rest => (a == b && b == c) || hasRepeatRun (b :: c :: rest)
  | _ => false

/-- Embedding of `analyze_password` (src/main.py lines 108-118). -/
def analyze_password (password : String) : Analysis :=
  let cs := password.data
  { length := cs.length
    uppercase := cs.any (fun c => decide ('A' ≤ c) && decide (c ≤ 'Z'))
    lowercase := cs.any (fun c => decide ('a' ≤ c) && decide (c ≤ 'z'))
    numbers := cs.any (fun c => decide ('0' ≤ c) && decide (c ≤ '9'))
    special := cs.any (fun c =>
      !((decide ('A' ≤ c) && decide (c ≤ 'Z')) ||
        (decide ('a' ≤ c) && decide (c ≤ 'z')) ||
        (decide ('0' ≤ c) && decide (c ≤ '9'))))
    common_patterns :=
      let low := cs.map Char.toLower
      occursIn "123".data low || occursIn "abc".data low ||
        occursIn "password".data low || occursIn "qwerty".data low
    repeats := hasRepeatRun cs }

/-- Embedding of `calculate_strength` (src/main.py lines 121-146). -/
def calculate_strength (analysis : Analysis) : StrengthResult :=
  let score : Int := 0
  let score := score + min ((analysis.length : Int) * 2) 20
  let score := score + 5 * ((if analysis.uppercase then (1 : Int) else 0) +
    (if analysis.lowercase then 1 else 0) + (if analysis.numbers then 1 else 0) +
    (if analysis.special then 1 else 0))
  let score := if analysis.common_patterns then score - 15 else score
  let score := if analysis.repeats then score - 10 else score
  let score := if analysis.length < 8 then score - 20 else score
  let score := max 0 (min score 100)
  if score < 40 then { strength := "Weak", score := score, color := "#ff4b4b" }
  else if score < 75 then { strength := "Moderate", score := score, color := "#f4c430" }
  else { strength := "Strong", score := score, color := "#2ecc71" }

/-- The sentinel message appended by `generate_suggestions` when no rule
produced a suggestion. -/
def sentinelMsg : String :=
  "✅ Excellent password! Consider using a password manager to store it securely."

/-- Embedding of `generate_suggestions` (src/main.py lines 149-173). -/
def generate_suggestions (analysis : Analysis) : List String :=
  let suggestions : List String := []
  let suggestions := if analysis.length < 12 then
    suggestions ++ ["🔍 Increase length to at least 12 characters"] else suggestions
  let suggestions := if !analysis.uppercase then
    suggestions ++ ["🔠 Add uppercase letters"] else suggestions
  let suggestions := if !analysis.lowercase then
    suggestions ++ ["🔡 Add lowercase letters"] else suggestions
  let suggestions := if !analysis.numbers then
    suggestions ++ ["🔢 Include numbers"] else suggestions
  let suggestions := if !analysis.special then
    suggestions ++ ["⚡ Add special characters (!@#$%^ etc.)"] else suggestions
  let suggestions := if analysis.common_patterns then
    suggestions ++ ["🚫 Avoid common patterns and dictionary words"] else suggestions
  let suggestions := if analysis.repeats then
    suggestions ++ ["♻️ Reduce repeating characters"] else suggestions
  let suggestions := if 8 ≤ analysis.length ∧ analysis.length < 12 then
    suggestions ++ ["💡 Try using a passphrase instead of random characters"] else suggestions
  if suggestions.length = 0 then suggestions ++ [sentinelMsg] else suggestions

/-- The first eight conditional appends of `generate_suggestions`, before the
sentinel step (same code, stopped one line early; used to reason about the
sentinel branch). -/
def ruleList (analysis : Analysis) : List String :=
  let suggestions : List String := []
  let suggestions := if analysis.length < 12 then
    suggestions ++ ["🔍 Increase length to at least 12 characters"] else suggestions
  let suggestions := if !analysis.uppercase then
    suggestions ++ ["🔠 Add uppercase letters"] else suggestions
  let suggestions := if !analysis.lowercase then
    suggestions ++ ["🔡 Add lowercase letters"] else suggestions
  let suggestions := if !analysis.numbers then
    suggestions ++ ["🔢 Include numbers"] else suggestions
  let suggestions := if !analysis.special then
    suggestions ++ ["⚡ Add special characters (!@#$%^ etc.)"] else suggestions
  let suggestions := if analysis.common_patterns then
    suggestions ++ ["🚫 Avoid common patterns and dictionary words"] else suggestions
  let suggestions := if analysis.repeats then
    suggestions ++ ["♻️ Reduce repeating characters"] else suggestions
  if 8 ≤ analysis.length ∧ analysis.length < 12 then
    suggestions ++ ["💡 Try using a passphrase instead of random characters"] else suggestions

/-- `string.ascii_uppercase`, as the character sequence it is. -/
def ascii_uppercase : List Char := "ABCDEFGHIJKLMNOPQRSTUVWXYZ".data

/-- `string.ascii_lowercase`. -/
def ascii_lowercase : List Char := "abcdefghijklmnopqrstuvwxyz".data

/-- `string.digits`. -/
def digits : List Char := "0123456789".data

/-- The fixed special-character set of the generator. -/
def specialChars : List Char := "!@#$%^&*()_+-=".data

/-- Embedding of `generate_password` (src/main.py lines 176-188).  The
`pick` oracle stands for the successive outcomes of `secrets.choice`: call
number `i` returns the character at index `pick i % characters.length`, so
every possible behaviour of the cryptographic choice corresponds to some
`pick`. -/
def generate_password (pick : Nat → Nat) (length : Nat)
    (uppercase lowercase numbers special : Bool) : String :=
  let characters : List Char :=
    (if uppercase then ascii_uppercase else []) ++
    (if lowercase then ascii_lowercase else []) ++
    (if numbers then digits else []) ++
    (if special then specialChars else [])
  if characters.isEmpty then "Please select at least one character type"
  else String.mk ((List.range length).map
    (fun i => characters.getD (pick i % characters.length) 'A'))

/-- The §4.2 scoring formula as the spec states it in closed form: the clamp
to [0,100] of min(2·length, 20), plus 5 per present character class, minus
15 for a common pattern, 10 for a repeat run, 20 for length below 8. -/
def specScore (a : Analysis) : Int :=
  max 0 (min (min ((a.length : Int) * 2) 20
    + 5 * ((if a.uppercase then 1 else 0) + (if a.lowercase then 1 else 0)
      + (if a.numbers then 1 else 0) + (if a.special then 1 else 0))
    - (if a.common_patterns then 15 else 0)
    - (if a.repeats then 10 else 0)
    - (if a.length < 8 then 20 else 0)) 100)

theorem calculate_strength_score_eq (a : Analysis) :
    (calculate_strength a).score = specScore a := by
  unfold calculate_strength specScore
  dsimp only
  generalize (if a.uppercase = true then (1:Int) else 0) = u
  generalize (if a.lowercase = true then (1:Int) else 0) = v
  generalize (if a.numbers = true then (1:Int) else 0) = w
  generalize (if a.special = true then (1:Int) else 0) = x
  split_ifs <;> (dsimp only; omega)

theorem calculate_strength_strength_eq (a : Analysis) :
    (calculate_strength a).strength
      = if specScore a < 40 then "Weak"
        else if specScore a < 75 then "Moderate" else "Strong" := by
  unfold calculate_strength specScore
  dsimp only
  generalize (if a.uppercase = true then (1:Int) else 0) = u
  generalize (if a.lowercase = true then (1:Int) else 0) = v
  generalize (if a.numbers = true then (1:Int) else 0) = w
  generalize (if a.special = true then (1:Int) else 0) = x
  split_ifs <;> first | rfl | (exfalso; omega)

theorem specScore_le_40 (a : Analysis) : specScore a ≤ 40 := by
  unfold specScore
  split_ifs <;> omega

theorem specScore_bounds (a : Analysis) : 0 ≤ specScore a ∧ specScore a ≤ 100 := by
  unfold specScore
  split_ifs <;> omega

/-- Claim C3: for every feature record, the score produced by
`calculate_strength` is at most 40 (the length term saturates at 20 and the
class-diversity term at 20, every remaining term subtracts), so the category
"Strong" (reserved for score ≥ 75) is never returned. -/
theorem strength_score_le_40_and_strong_unreachable (a : Analysis) :
    (calculate_strength a).score ≤ 40 ∧ (calculate_strength a).strength ≠ "Strong" := by
  have hs := calculate_strength_score_eq a
  have h40 := specScore_le_40 a
  refine ⟨by rw [hs]; exact h40, ?_⟩
  rw [calculate_strength_strength_eq a]
  split_ifs with h1 h2
  · decide
  · decide
  · exact absurd h40 (by omega)

/-- Claim C4: for every feature record, the score returned by
`calculate_strength` equals the clamp to [0,100] of min(2·length, 20), plus 5
per true class flag, minus 15 for a common pattern, minus 10 for a repeat
run, minus 20 when length < 8 (`specScore` spells out exactly this formula);
in particular the result lies in [0,100]. -/
theorem strength_score_formula_and_clamp (a : Analysis) :
    (calculate_strength a).score = specScore a ∧
      0 ≤ (calculate_strength a).score ∧ (calculate_strength a).score ≤ 100 := by
  have hs := calculate_strength_score_eq a
  have hb := specScore_bounds a
  exact ⟨hs, by rw [hs]; exact hb.1, by rw [hs]; exact hb.2⟩

/-- Claim C5: for every feature record, the category returned by
`calculate_strength` is determined by the clamped score with exactly the
bands score < 40 → Weak, 40 ≤ score < 75 → Moderate, score ≥ 75 → Strong
(each band characterises its category, so exactly 40 is Moderate and exactly
75 would be Strong). -/
theorem strength_category_bands (a : Analysis) :
    ((calculate_strength a).score < 40 ↔ (calculate_strength a).strength = "Weak") ∧
    (40 ≤ (calculate_strength a).score ∧ (calculate_strength a).score < 75 ↔
      (calculate_strength a).strength = "Moderate") ∧
    (75 ≤ (calculate_strength a).score ↔ (calculate_strength a).strength = "Strong") := by
  rw [calculate_strength_strength_eq a, calculate_strength_score_eq a]
  split_ifs with h1 h2 <;>
    refine ⟨?_, ?_, ?_⟩ <;> constructor <;> intro h <;> first | rfl | omega | (exfalso; revert h; decide)

/-- Claim C10: feature extraction is deterministic — it depends only on the
input string, so two calls of `analyze_password` on the same string yield
identical records (the embedding is a pure function of the string, as the
source computes only from `password` with no other state). -/
theorem analyze_password_deterministic (s t : String) (h : s = t) :
    analyze_password s = analyze_password t := by rw [h]

/-- Witness for C10 at the concrete string "abc". -/
theorem analyze_password_deterministic_witness :
    analyze_password "abc" = analyze_password "abc" :=
  analyze_password_deterministic "abc" "abc" rfl

/-- Claim C2 counterexample: on the empty string the suggestion list has 5
entries (rules 1-5 fire; rules 6-8 cannot), not the 6 the claim states. -/
theorem empty_string_suggestions_not_six :
    ¬ (generate_suggestions (analyze_password "")).length = 6 := by decide

/-- Claim C2 as amended: the empty string yields the all-false record of
length 0, score 0 classified Weak, and exactly 5 suggestions (rules 1-5)
with no sentinel. -/
theorem empty_string_scenario :
    analyze_password "" = ⟨0, false, false, false, false, false, false⟩ ∧
    (calculate_strength (analyze_password "")).score = 0 ∧
    (calculate_strength (analyze_password "")).strength = "Weak" ∧
    (generate_suggestions (analyze_password "")).length = 5 ∧
    sentinelMsg ∉ generate_suggestions (analyze_password "") := by decide

/-- Claim C9: the string "Password123!" yields length 12, every class flag
true, a common pattern (the case-insensitive "password" substring), no repeat
run; score 25 classified Weak; and exactly one suggestion, the
common-pattern message, with no sentinel. -/
theorem password123_scenario :
    analyze_password "Password123!" = ⟨12, true, true, true, true, true, false⟩ ∧
    (calculate_strength (analyze_password "Password123!")).score = 25 ∧
    (calculate_strength (analyze_password "Password123!")).strength = "Weak" ∧
    generate_suggestions (analyze_password "Password123!")
      = ["🚫 Avoid common patterns and dictionary words"] ∧
    sentinelMsg ∉ generate_suggestions (analyze_password "Password123!") := by decide

/-- Claim C1 counterexample: with the empty class set the generator DOES
return a string — the fixed in-band message shown here, carried in the same
`String`-typed result as successful generations; there is no separate
error-variant value in the code, so "returns the error value
NoCharacterClassSelected ... and never returns a string" fails. -/
theorem generate_password_empty_classes_returns_string :
    generate_password (fun _ => 0) 12 false false false false
      = "Please select at least one character type" := by decide

/-- Claim C1 as amended: for every request with the empty class set,
`generate_password` returns the fixed in-band sentinel string
"Please select at least one character type" (a plain string result, not a
distinct error variant and not a thrown fault), never a password, and never
defaults to a non-empty alphabet. -/
theorem generate_password_empty_classes (pick : Nat → Nat) (length : Nat) :
    generate_password pick length false false false false
      = "Please select at least one character type" := rfl

theorem generate_suggestions_eq_ruleList (a : Analysis) :
    generate_suggestions a
      = if (ruleList a).length = 0 then ruleList a ++ [sentinelMsg] else ruleList a := rfl

theorem ruleList_eq_append (a : Analysis) :
    ruleList a
      = (if a.length < 12 then ["🔍 Increase length to at least 12 characters"] else []) ++
        (if !a.uppercase then ["🔠 Add uppercase letters"] else []) ++
        (if !a.lowercase then ["🔡 Add lowercase letters"] else []) ++
        (if !a.numbers then ["🔢 Include numbers"] else []) ++
        (if !a.special then ["⚡ Add special characters (!@#$%^ etc.)"] else []) ++
        (if a.common_patterns then ["🚫 Avoid common patterns and dictionary words"] else []) ++
        (if a.repeats then ["♻️ Reduce repeating characters"] else []) ++
        (if 8 ≤ a.length ∧ a.length < 12 then
          ["💡 Try using a passphrase instead of random characters"] else []) := by
  obtain ⟨len, up, low, num, sp, com, rep⟩ := a
  cases up <;> cases low <;> cases num <;> cases sp <;> cases com <;> cases rep <;>
    simp [ruleList] <;> split_ifs <;> simp

theorem sentinelMsg_not_mem_ruleList (a : Analysis) : sentinelMsg ∉ ruleList a := by
  rw [ruleList_eq_append]
  refine List.not_mem_append (List.not_mem_append (List.not_mem_append
    (List.not_mem_append (List.not_mem_append (List.not_mem_append
      (List.not_mem_append ?_ ?_) ?_) ?_) ?_) ?_) ?_) ?_
  all_goals
    rcases (em _) with hc | hc
    · rw [if_pos hc]
      decide
    · rw [if_neg hc]
      exact List.not_mem_nil _

theorem ruleList_eq_nil_iff (a : Analysis) :
    ruleList a = [] ↔
      (¬ a.length < 12 ∧ a.uppercase = true ∧ a.lowercase = true ∧ a.numbers = true ∧
        a.special = true ∧ a.common_patterns = false ∧ a.repeats = false ∧
        ¬(8 ≤ a.length ∧ a.length < 12)) := by
  rw [ruleList_eq_append]
  simp only [List.append_eq_nil, ite_eq_right_iff, List.cons_ne_nil, imp_false, and_assoc]
  constructor
  · rintro ⟨h1, h2, h3, h4, h5, h6, h7, h8⟩
    refine ⟨by omega, ?_, ?_, ?_, ?_, ?_, ?_, by omega⟩ <;> simp_all
  · rintro ⟨h1, h2, h3, h4, h5, h6, h7, h8⟩
    refine ⟨by omega, ?_, ?_, ?_, ?_, ?_, ?_, by omega⟩ <;> simp_all

/-- Claim C6: for every feature record the suggestion list is non-empty; the
"looks strong" sentinel appears iff none of the eight condition-driven rules
fired; and when it appears it is the only entry (mutual exclusivity). -/
theorem suggestions_nonempty_sentinel_exclusive (a : Analysis) :
    generate_suggestions a ≠ [] ∧
    (sentinelMsg ∈ generate_suggestions a ↔
      (¬ a.length < 12 ∧ a.uppercase = true ∧ a.lowercase = true ∧ a.numbers = true ∧
        a.special = true ∧ a.common_patterns = false ∧ a.repeats = false ∧
        ¬(8 ≤ a.length ∧ a.length < 12))) ∧
    (sentinelMsg ∈ generate_suggestions a → generate_suggestions a = [sentinelMsg]) := by
  have hnm := sentinelMsg_not_mem_ruleList a
  rw [generate_suggestions_eq_ruleList, ← ruleList_eq_nil_iff]
  rcases em (ruleList a = []) with he | he
  · rw [if_pos (by simp [he])]
    rw [he]
    refine ⟨by simp, by simp, fun _ => rfl⟩
  · rw [if_neg (by simpa [List.length_eq_zero] using he)]
    exact ⟨he, ⟨fun hm => absurd hm hnm, fun h => absurd h he⟩, fun hm => absurd hm hnm⟩

theorem characters_ne_nil (uppercase lowercase numbers special : Bool)
    (h : (uppercase || lowercase || numbers || special) = true) :
    ((if uppercase then ascii_uppercase else []) ++ (if lowercase then ascii_lowercase else []) ++
      (if numbers then digits else []) ++ (if special then specialChars else [])) ≠ [] := by
  cases uppercase <;> cases lowercase <;> cases numbers <;> cases special <;>
    first
      | exact absurd h (by decide)
      | decide

theorem getD_mem_of_lt : ∀ (l : List Char) (n : Nat) (d : Char), n < l.length → l.getD n d ∈ l
  | a :: as, 0, d, _ => by simp [List.getD]
  | a :: as, n + 1, d, h => by
      rw [List.getD_cons_succ]
      exact List.mem_cons_of_mem a (getD_mem_of_lt as n d (by simpa using h))
  | [], n, d, h => by simp at h

/-- Claim C7: for every request with at least one class enabled and a
positive length, the generated string has exactly the requested length,
whatever characters the random source picks. -/
theorem generate_password_length (pick : Nat → Nat) (length : Nat)
    (uppercase lowercase numbers special : Bool)
    (hclass : (uppercase || lowercase || numbers || special) = true)
    (hlen : 1 ≤ length) :
    (generate_password pick length uppercase lowercase numbers special).length = length := by
  have hne := characters_ne_nil uppercase lowercase numbers special hclass
  unfold generate_password
  dsimp only
  rw [if_neg (by simpa [List.isEmpty_iff] using hne)]
  show ((List.range length).map _).length = length
  rw [List.length_map, List.length_range]

/-- Witness for C7 at a concrete request (all classes, length 16, the
random source always picking index 0). -/
theorem generate_password_length_witness :
    (generate_password (fun _ => 0) 16 true true true true).length = 16 :=
  generate_password_length (fun _ => 0) 16 true true true true (by decide) (by decide)

/-- Claim C8: every character of a generated password belongs to the union
of the character sets of the requested classes, the alphabet being the
concatenation, in the fixed order uppercase/lowercase/digits/special, of the
enabled sets, with specials drawn from the fixed "!@#$%^&*()_+-=". -/
theorem generate_password_alphabet (pick : Nat → Nat) (length : Nat)
    (uppercase lowercase numbers special : Bool)
    (hclass : (uppercase || lowercase || numbers || special) = true)
    (c : Char)
    (hc : c ∈ (generate_password pick length uppercase lowercase numbers special).data) :
    (uppercase = true ∧ c ∈ ascii_uppercase) ∨ (lowercase = true ∧ c ∈ ascii_lowercase) ∨
      (numbers = true ∧ c ∈ digits) ∨ (special = true ∧ c ∈ specialChars) := by
  have hne := characters_ne_nil uppercase lowercase numbers special hclass
  unfold generate_password at hc
  dsimp only at hc
  rw [if_neg (by simpa [List.isEmpty_iff] using hne)] at hc
  have hc' : c ∈ (List.range length).map (fun i =>
      ((if uppercase then ascii_uppercase else []) ++ (if lowercase then ascii_lowercase else []) ++
        (if numbers then digits else []) ++ (if special then specialChars else [])).getD
        (pick i % ((if uppercase then ascii_uppercase else []) ++
          (if lowercase then ascii_lowercase else []) ++ (if numbers then digits else []) ++
          (if special then specialChars else [])).length) 'A') := hc
  obtain ⟨i, _, hi⟩ := List.mem_map.mp hc'
  have hmem := getD_mem_of_lt _ (pick i % ((if uppercase then ascii_uppercase else []) ++
      (if lowercase then ascii_lowercase else []) ++ (if numbers then digits else []) ++
      (if special then specialChars else [])).length) 'A'
    (Nat.mod_lt _ (List.length_pos.mpr hne))
  rw [hi] at hmem
  simp only [List.mem_append] at hmem
  rcases hmem with ((h | h) | h) | h
  · cases uppercase
    · simp at h
    · exact Or.inl ⟨rfl, by simpa using h⟩
  · cases lowercase
    · simp at h
    · exact Or.inr (Or.inl ⟨rfl, by simpa using h⟩)
  · cases numbers
    · simp at h
    · exact Or.inr (Or.inr (Or.inl ⟨rfl, by simpa using h⟩))
  · cases special
    · simp at h
    · exact Or.inr (Or.inr (Or.inr ⟨rfl, by simpa using h⟩))

/-- Witness for C8: in a fully enabled request whose random source always
picks index 0, the generated characters are 'A', which lies in the uppercase
set. -/
theorem generate_password_alphabet_witness :
    (true = true ∧ ('A' : Char) ∈ ascii_uppercase) ∨
      (true = true ∧ ('A' : Char) ∈ ascii_lowercase) ∨
      (true = true ∧ ('A' : Char) ∈ digits) ∨
      (true = true ∧ ('A' : Char) ∈ specialChars) :=
  generate_password_alphabet (fun _ => 0) 16 true true true true (by decide) 'A' (by decide)
